import Mathlib

/-!
Verification of the PhishSleuth heuristic scoring engine.

Shallow embedding of `src/phishsleuth/sleuth/heuristics.py`,
`src/phishsleuth/sleuth/url_tools.py`, the mode-selection line of
`src/phishsleuth/app.py`, and the failure handling of
`src/phishsleuth/sleuth/ai_reason.py`.

Strings are modelled over their character lists; Python `str.lower`,
`str.strip`, `str.title`, substring containment (`in`), `str.endswith`,
`str.count` and f-string formatting of integers are embedded as
structurally recursive functions over `List Char` (faithful for the
ASCII text these heuristics operate on; Python's extra Unicode
whitespace/case folding is out of scope of the claims).  Python `int`
is `Int`.  A Python function that can raise is embedded returning
`Option`.
-/

namespace PhishSleuth

/-- Python `\s` / `str.isspace` over ASCII: space, tab, LF, CR, VT, FF. -/
def pySpace (c : Char) : Bool :=
  c = ' ' || c = '\t' || c = '\n' || c = '\x0d' || c = '\x0b' || c = '\x0c'

/-- ASCII lower-casing of one character (Python `str.lower` on ASCII). -/
def asciiLower (c : Char) : Char :=
  if 'A' ≤ c && c ≤ 'Z' then Char.ofNat (c.toNat + 32) else c

/-- ASCII upper-casing of one character. -/
def asciiUpper (c : Char) : Char :=
  if 'a' ≤ c && c ≤ 'z' then Char.ofNat (c.toNat - 32) else c

/-- Python `str.lower` (ASCII). -/
def lowerStr (s : String) : String := ⟨s.data.map asciiLower⟩

/-- Strip `pySpace` characters from both ends of a character list. -/
def stripList (cs : List Char) : List Char :=
  ((cs.dropWhile pySpace).reverse.dropWhile pySpace).reverse

/-- Python `str.strip()` with no argument (ASCII whitespace). -/
def pyStrip (s : String) : String := ⟨stripList s.data⟩

/-- `w.isPrefixOf t || ...` scan: Python substring containment `w in t`
on character lists. -/
def infixOf (w : List Char) : List Char → Bool
  | [] => w.isEmpty
  | c :: rest => w.isPrefixOf (c :: rest) || infixOf w rest

/-- Python `w in t` for strings. -/
def strContains (t w : String) : Bool := infixOf w.data t.data

/-- Python `t.endswith suffix`. -/
def strEndsWith (t suffix : String) : Bool := suffix.data.isSuffixOf t.data

/-- Helper for `pyTitle`: the boolean carries "previous char was alphabetic". -/
def pyTitleAux : Bool → List Char → List Char
  | _, [] => []
  | prevAlpha, c :: rest =>
    let c2 := if c.isAlpha then (if prevAlpha then asciiLower c else asciiUpper c) else c
    c2 :: pyTitleAux c.isAlpha rest

/-- Python `str.title()` (ASCII): first letter of each word upper-cased,
the rest lower-cased. -/
def pyTitle (s : String) : String := ⟨pyTitleAux false s.data⟩

/-- Decimal digits of a natural number, most significant first; the first
argument is structural fuel (always sufficient at `n + 1`). -/
def natReprAux : Nat → Nat → List Char
  | 0, _ => []
  | fuel + 1, n =>
    if n < 10 then [Char.ofNat (48 + n)]
    else natReprAux fuel (n / 10) ++ [Char.ofNat (48 + n % 10)]

/-- Decimal rendering of a natural number (Python `str(int)` for `n ≥ 0`). -/
def natRepr (n : Nat) : String := ⟨natReprAux (n + 1) n⟩

/-- Python `str(int)` for a (possibly negative) integer. -/
def intRepr (i : Int) : String :=
  if i < 0 then "-" ++ natRepr i.natAbs else natRepr i.natAbs

/-- Split a character list at every `'.'` (Python `host.split "."` shape,
used to embed the IPv4 regex). -/
def splitDots : List Char → List (List Char)
  | [] => [[]]
  | c :: rest =>
    if c = '.' then [] :: splitDots rest
    else
      match splitDots rest with
      | [] => [[c]]
      | g :: gs => (c :: g) :: gs

/-!  ## Lexicon (`heuristics.py` keyword sets, verbatim)  -/

def URGENT_TERMS : List String :=
  ["urgent", "immediately", "asap", "straight away",
   "within 24 hours", "today", "now", "right away"]

def THREAT_TERMS : List String :=
  ["account will be closed", "suspended", "locked",
   "last warning", "final notice", "legal action",
   "fine", "penalty", "lose access", "limited access"]

def CREDENTIAL_TERMS : List String :=
  ["login", "log in", "sign in", "verify your account",
   "confirm your account", "update your account",
   "password", "passcode", "one time password", "otp",
   "security code", "verification code"]

def PAYMENT_TERMS : List String :=
  ["invoice", "payment", "pay now", "overdue",
   "bank details", "credit card", "debit card",
   "wire transfer", "bitcoin", "crypto"]

def ATTACHMENT_TERMS : List String :=
  ["attachment", "attached", "see attached", "open the attached",
   ".zip", ".exe", ".html", ".htm", ".pdf"]

def GENERIC_GREETINGS : List String :=
  ["dear customer", "dear client", "dear user",
   "dear valued customer", "dear valued client"]

def BRAND_KEYWORDS : List String :=
  ["dhl", "fedex", "ups", "amazon", "paypal",
   "apple", "microsoft", "standard bank", "fnb",
   "absa", "capitec", "netflix", "facebook", "instagram"]

def SUSPICIOUS_TLDS : List String :=
  [".top", ".xyz", ".club", ".click", ".info", ".shop",
   ".work", ".loan", ".win", ".men", ".kim"]

def URL_SHORTENERS : List String :=
  ["bit.ly", "tinyurl.com", "goo.gl", "t.co", "ow.ly", "is.gd"]

/-!  ## Data model  -/

/-- One finding dict `{"label", "detail", "severity", "weight"}`. -/
structure Finding where
  label : String
  detail : String
  severity : String
  weight : Int
deriving Repr, DecidableEq

/-- The dict returned by `analyze_text_or_url`. -/
structure AnalysisResult where
  score : Int
  findings : List Finding
deriving Repr, DecidableEq

/-- Number of lexicon terms contained in the (already lower-cased) text:
`sum(1 for w in TERMS if w in text_lower)`. -/
def countHits (terms : List String) (textLower : String) : Nat :=
  (terms.filter (fun w => strContains textLower w)).length

/-!  ## Text scorers (`_score_for_*`)

Each Python `_score_for_X(text_lower, findings)` mutates `findings` and
returns the added weight; it is embedded as a pure function returning
`(weight, appended findings)`. -/

/-- `_score_for_urgency`. -/
def scoreForUrgency (textLower : String) : Int × List Finding :=
  let hits := countHits URGENT_TERMS textLower
  if hits = 0 then (0, [])
  else
    let severity := if hits ≤ 2 then "medium" else "high"
    let weight : Int := min 25 ((hits : Int) * 6)
    let h := natRepr hits
    (weight, [⟨"Urgency language", "Detected " ++ h ++ " urgency phrases.", severity, weight⟩])

/-- `_score_for_threats`. -/
def scoreForThreats (textLower : String) : Int × List Finding :=
  let hits := countHits THREAT_TERMS textLower
  if hits = 0 then (0, [])
  else
    let severity := if hits = 1 then "medium" else "high"
    let weight : Int := min 25 (8 * (hits : Int))
    let h := natRepr hits
    (weight, [⟨"Threat/penalty language", "Detected " ++ h ++ " threat/penalty phrases.", severity, weight⟩])

/-- `_score_for_credentials`. -/
def scoreForCredentials (textLower : String) : Int × List Finding :=
  let hits := countHits CREDENTIAL_TERMS textLower
  if hits = 0 then (0, [])
  else
    let weight : Int := min 30 (10 * (hits : Int))
    (weight, [⟨"Credentials / OTP request", "Message refers to login, passwords or codes.", "high", weight⟩])

/-- `_score_for_payments`. -/
def scoreForPayments (textLower : String) : Int × List Finding :=
  let hits := countHits PAYMENT_TERMS textLower
  if hits = 0 then (0, [])
  else
    let severity := if hits = 1 then "medium" else "high"
    let weight : Int := min 25 (7 * (hits : Int))
    (weight, [⟨"Payment / money request", "Message pushes a payment, invoice or financial transfer.", severity, weight⟩])

/-- `_score_for_attachments`. -/
def scoreForAttachments (textLower : String) : Int × List Finding :=
  let hits := countHits ATTACHMENT_TERMS textLower
  if hits = 0 then (0, [])
  else
    let weight : Int := min 20 (5 * (hits : Int))
    (weight, [⟨"Attachment lure", "Message mentions attachments or risky file types.", "medium", weight⟩])

/-- `_score_for_greeting`. -/
def scoreForGreeting (textLower : String) : Int × List Finding :=
  let hits := GENERIC_GREETINGS.filter (fun g => strContains textLower g)
  if hits = [] then (0, [])
  else
    let joined := String.intercalate ", " hits
    (8, [⟨"Generic greeting", "Uses non-personal greeting: " ++ joined ++ ".", "low", 8⟩])

/-!  ## URL host extraction (CPython `urllib.parse.urlsplit`, netloc part)

`urlparse(url).netloc`: the input is stripped of leading
C0-control-or-space bytes (only leading ones — CPython deliberately
preserves trailing space) and of all tab/CR/LF bytes, an optional
`scheme:` prefix is removed, and if the remainder starts with `//` the
netloc runs up to the next `/`, `?` or `#`.  A netloc containing `[`
without `]` (or vice versa) raises `ValueError` ("Invalid IPv6 URL"),
embedded as `none` (Python 3.11+ additionally validates hosts bracketed
on both sides, which no input considered here has). -/

/-- WHATWG C0-control-or-space predicate used by `urlsplit` stripping. -/
def c0OrSpace (c : Char) : Bool := c.toNat ≤ 32

/-- `urlsplit` input sanitisation. -/
def urlPreprocess (cs : List Char) : List Char :=
  (cs.dropWhile c0OrSpace).filter
    (fun c => !(c = '\t' || c = '\x0d' || c = '\n'))

/-- Characters allowed in a URL scheme after the first letter. -/
def isSchemeChar (c : Char) : Bool :=
  c.isAlpha || c.isDigit || c = '+' || c = '-' || c = '.'

/-- Drop a leading `scheme:` when the part before the first `':'` is a
well-formed scheme (first char a letter, rest scheme chars). -/
def splitScheme (cs : List Char) : List Char :=
  match cs.findIdx? (fun c => c = ':') with
  | none => cs
  | some i =>
    if 0 < i && (cs.take 1).all Char.isAlpha && ((cs.take i).drop 1).all isSchemeChar
    then cs.drop (i + 1) else cs

/-- When the remainder starts with `//`, its netloc (up to `/`, `?` or `#`). -/
def splitNetloc : List Char → Option (List Char)
  | '/' :: '/' :: rest => some (rest.takeWhile (fun c => !(c = '/' || c = '?' || c = '#')))
  | _ => none

/-- `urlparse(url).netloc` (with `or ""`); `none` embeds the raising path. -/
def pyUrlparseNetloc (url : String) : Option String :=
  let rest := splitScheme (urlPreprocess url.data)
  match splitNetloc rest with
  | none => some ""
  | some nl =>
    if (nl.contains '[' && !nl.contains ']') || (nl.contains ']' && !nl.contains '[')
    then none
    else some ⟨nl⟩

/-- Full match of `^\d{1,3}(\.\d{1,3}){3}$`: four dot-separated groups of
one to three digits. -/
def isIpv4 (cs : List Char) : Bool :=
  let parts := splitDots cs
  parts.length = 4 &&
    parts.all (fun p => 1 ≤ p.length && p.length ≤ 3 && p.all Char.isDigit)

/-!  ## URL scorers  -/

/-- The raw-IP condition of `_score_single_url`:
`re.match(r"^\d{1,3}(\.\d{1,3}){3}$", host.split(":")[0])`. -/
def hostIsIp (host : String) : Bool :=
  isIpv4 (host.data.takeWhile (fun c => c ≠ ':'))

/-- The first suspicious TLD `host` ends with, if any
(the `for tld in SUSPICIOUS_TLDS` loop). -/
def tldHit (host : String) : Option String :=
  SUSPICIOUS_TLDS.find? (fun tld => strEndsWith host tld)

/-- The noisy-domain condition:
`sum(c.isdigit() for c in host) >= 5 or host.count("-") >= 3`. -/
def hostNoisy (host : String) : Bool :=
  decide (5 ≤ (host.data.filter Char.isDigit).length) ||
    decide (3 ≤ host.data.count '-')

/-- The shortener condition: `any(short in host for short in URL_SHORTENERS)`. -/
def hostShortener (host : String) : Bool :=
  URL_SHORTENERS.any (fun short => strContains host short)

/-- The first brand mentioned in the text but absent from the host, if any
(the `for brand in BRAND_KEYWORDS` loop). -/
def brandHit (textLower host : String) : Option String :=
  BRAND_KEYWORDS.find? (fun brand =>
    strContains textLower brand && !strContains host brand)

/-- `_score_single_url(url, text_lower)`: `(weight, label, detail, severity)`.
The checks form a cascade; the first matching one decides the result. -/
def scoreSingleUrl (url : String) (textLower : String) : Int × String × String × String :=
  match pyUrlparseNetloc url with
  | none => (0, "", "", "")
  | some netloc =>
    let host := lowerStr netloc
    if hostIsIp host then
      (25, "IP address URL", "Link uses raw IP address.", "high")
    else
      match tldHit host with
      | some tld => (18, "Unusual domain", "Domain ends with " ++ tld ++ ".", "medium")
      | none =>
        if hostNoisy host then
          (15, "Noisy domain", "Domain has many digits or dashes.", "medium")
        else if hostShortener host then
          (20, "URL shortener", "Link uses a generic URL shortener.", "medium")
        else
          match brandHit textLower host with
          | some brand =>
            let bt := pyTitle brand
            (22, "Possible brand impersonation",
             "Mentions " ++ bt ++ " but domain does not match brand.", "high")
          | none => (0, "", "", "")

/-- The finding dict `_score_for_urls` appends for one matching URL. -/
def mkUrlFinding (url : String) (r : Int × String × String × String) : Finding :=
  ⟨r.2.1, r.2.2.1 ++ " (" ++ url ++ ")", r.2.2.2, r.1⟩

/-- The loop body of `_score_for_urls`: running weight sum and appended
findings, in URL order. -/
def scoreForUrlsAux (textLower : String) : List String → Int × List Finding
  | [] => (0, [])
  | url :: rest =>
    let r := scoreSingleUrl url textLower
    let tail := scoreForUrlsAux textLower rest
    if 0 < r.1 then (r.1 + tail.1, mkUrlFinding url r :: tail.2) else tail

/-- `_score_for_urls(urls, text_lower, findings)`: findings keep their full
weights, the returned contribution is `min(score, 40)`. -/
def scoreForUrls (urls : List String) (textLower : String) : Int × List Finding :=
  let a := scoreForUrlsAux textLower urls
  (min a.1 40, a.2)

/-!  ## URL extraction  -/

/-- Leading `http://` / `https://` literal (the regex `https?://`),
returning the consumed characters and the remainder. -/
def httpPrefix? : List Char → Option (List Char × List Char)
  | 'h' :: 't' :: 't' :: 'p' :: 's' :: ':' :: '/' :: '/' :: rest =>
    some (['h', 't', 't', 'p', 's', ':', '/', '/'], rest)
  | 'h' :: 't' :: 't' :: 'p' :: ':' :: '/' :: '/' :: rest =>
    some (['h', 't', 't', 'p', ':', '/', '/'], rest)
  | _ => none

/-- Left-to-right non-overlapping scan of `re.findall(r"https?://[^\s]+", text)`
(`_extract_urls` in `heuristics.py`).  The fuel argument is structural and
always sufficient at `length + 1` since every step consumes at least one
character. -/
def findUrlsAux : Nat → List Char → List String
  | 0, _ => []
  | _, [] => []
  | fuel + 1, c :: rest =>
    match httpPrefix? (c :: rest) with
    | some (pre, after) =>
      let body := after.takeWhile (fun ch => !pySpace ch)
      if body.isEmpty then findUrlsAux fuel rest
      else ⟨pre ++ body⟩ :: findUrlsAux fuel (after.drop body.length)
    | none => findUrlsAux fuel rest

/-- `_extract_urls` (`heuristics.py`). -/
def findUrls (text : String) : List String :=
  findUrlsAux (text.data.length + 1) text.data

/-- Case-insensitive `https?://` of `url_tools._URL_RE` (compiled with
`re.I`): the original characters are kept in the match. -/
def httpPrefixCI? : List Char → Option (List Char × List Char)
  | a :: b :: c :: d :: rest =>
    if [asciiLower a, asciiLower b, asciiLower c, asciiLower d] = ['h', 't', 't', 'p'] then
      match rest with
      | s :: x :: y :: z :: rest2 =>
        if asciiLower s = 's' then
          if [x, y, z] = [':', '/', '/'] then some ([a, b, c, d, s, x, y, z], rest2)
          else none
        else if [s, x, y] = [':', '/', '/'] then some ([a, b, c, d, s, x, y], z :: rest2)
        else none
      | s :: x :: y :: [] =>
        if asciiLower s ≠ 's' && [s, x, y] = [':', '/', '/'] then some ([a, b, c, d, s, x, y], [])
        else none
      | _ => none
    else none
  | _ => none

/-- Characters excluded by the body class `[^\s<>"\)\]]` of `_URL_RE`. -/
def urlToolsStop (c : Char) : Bool :=
  pySpace c || c = '<' || c = '>' || c = '"' || c = ')' || c = ']'

/-- Scan of `_URL_RE.findall` (`url_tools.py`), same shape as `findUrlsAux`. -/
def extractUrlsAux : Nat → List Char → List String
  | 0, _ => []
  | _, [] => []
  | fuel + 1, c :: rest =>
    match httpPrefixCI? (c :: rest) with
    | some (pre, after) =>
      let body := after.takeWhile (fun ch => !urlToolsStop ch)
      if body.isEmpty then extractUrlsAux fuel rest
      else ⟨pre ++ body⟩ :: extractUrlsAux fuel (after.drop body.length)
    | none => extractUrlsAux fuel rest

/-- `url_tools.extract_urls`: `[]` on the empty string, otherwise the regex
scan. -/
def extract_urls (text : String) : List String :=
  if text = "" then [] else extractUrlsAux (text.data.length + 1) text.data

/-!  ## Top level (`heuristics.py`)  -/

/-- `score_and_flags_for_text(text)`. -/
def score_and_flags_for_text (text : String) : Int × List Finding :=
  let tl := lowerStr text
  let u := scoreForUrgency tl
  let t := scoreForThreats tl
  let c := scoreForCredentials tl
  let p := scoreForPayments tl
  let a := scoreForAttachments tl
  let g := scoreForGreeting tl
  let urls := findUrls text
  let l := if urls.isEmpty then ((0 : Int), ([] : List Finding)) else scoreForUrls urls tl
  let score := u.1 + t.1 + c.1 + p.1 + a.1 + g.1 + l.1
  (max 0 (min 100 score), u.2 ++ t.2 ++ c.2 ++ p.2 ++ a.2 ++ g.2 ++ l.2)

/-- `score_and_flags_for_url(url)`. -/
def score_and_flags_for_url (url : String) : Int × List Finding :=
  let r := scoreSingleUrl (pyStrip url) (lowerStr url)
  let findings : List Finding :=
    if 0 < r.1 then [⟨r.2.1, r.2.2.1, r.2.2.2, r.1⟩] else []
  (max 0 (min 100 r.1), findings)

/-- The risk band cut-offs of `analyze_text_or_url`. -/
def riskBand (ruleScore : Int) : String :=
  if ruleScore < 25 then "Low" else if ruleScore < 60 then "Medium" else "High"

/-- The two meta findings prepended by `analyze_text_or_url`. -/
def metaFindings (ruleScore : Int) : List Finding :=
  [⟨"Risk band", riskBand ruleScore ++ " risk (rules-based).", "info", 0⟩,
   ⟨"Rule score", intRepr ruleScore ++ "/100 (heuristics).", "info", 0⟩]

/-- `analyze_text_or_url(inp, mode)`. -/
def analyze_text_or_url (inp : String) (mode : String) : AnalysisResult :=
  let r := if mode = "url" then score_and_flags_for_url (pyStrip inp)
           else score_and_flags_for_text inp
  ⟨r.1, metaFindings r.1 ++ r.2⟩

/-!  ## Mode selection (`app.py`, line 85)  -/

/-- `mode = "url" if len(urls) == 1 and urls[0].strip() == txt.strip() else "text"`
with `urls = extract_urls(txt)`. -/
def selectMode (txt : String) : String :=
  match extract_urls txt with
  | [u] => if pyStrip u = pyStrip txt then "url" else "text"
  | _ => "text"

/-!  ## External judgment (`ai_reason.py`)

`ai_judge` wraps a network call and JSON decoding in one `try/except`.
The external world is embedded as an oracle: the API key the robust
getter produced (`none` when neither the env var nor the secrets store
yields one), and the outcome of the guarded block.  Every raising
statement inside the `try` (client construction, the request, `json.loads`,
`int(...)` on a non-numeric score field) corresponds to the `.exn` outcome
caught by the `except`; a response whose text contains no `{...}` is
`.noJson`; a decoded object is `.json` with its `score` field already
converted by `int(data.get("score", 0))` and its `rationale` field by
`str(data.get("rationale", ""))`. -/

structure Judgment where
  score : Int
  rationale : String
deriving Repr, DecidableEq

inductive AIOutcome where
  | exn (cls : String) (msg : String)
  | noJson
  | json (score : Int) (rationale : String)
deriving Repr, DecidableEq

/-- `ai_available()`: `bool(_get_api_key())` — a missing key and an empty
string are both falsy. -/
def ai_available (key : Option String) : Bool :=
  key.getD "" ≠ ""

/-- `ai_judge(content, model)` for a given oracle. -/
def ai_judge (key : Option String) (outcome : AIOutcome) : Judgment :=
  if !ai_available key then
    ⟨0, "AI disabled (no API key set or not visible)."⟩
  else
    match outcome with
    | .exn cls msg =>
      ⟨0, "AI error; running rules-only. (" ++ cls ++ ": " ++ ⟨msg.data.take 200⟩ ++ ")"⟩
    | .noJson => ⟨0, "AI returned no JSON."⟩
    | .json score rationale =>
      let s := max 0 (min 100 score)
      let r := pyStrip rationale
      ⟨s, if r = "" then "No rationale." else r⟩

/-!  ## Validity of findings  -/

/-- The spec's finding invariant: non-negative weight and a severity drawn
from `{info, low, medium, high}`. -/
def ValidFinding (f : Finding) : Prop :=
  0 ≤ f.weight ∧ f.severity ∈ (["info", "low", "medium", "high"] : List String)

lemma scoreForUrgency_valid (tl : String) :
    0 ≤ (scoreForUrgency tl).1 ∧ ∀ f ∈ (scoreForUrgency tl).2, ValidFinding f := by
  simp only [scoreForUrgency]
  split
  · simp
  · refine ⟨le_min (by norm_num) (by positivity), ?_⟩
    intro f hf
    simp only [List.mem_singleton] at hf
    subst hf
    refine ⟨le_min (by norm_num) (by positivity), ?_⟩
    split <;> simp [ValidFinding]

lemma scoreForThreats_valid (tl : String) :
    0 ≤ (scoreForThreats tl).1 ∧ ∀ f ∈ (scoreForThreats tl).2, ValidFinding f := by
  simp only [scoreForThreats]
  split
  · simp
  · refine ⟨le_min (by norm_num) (by positivity), ?_⟩
    intro f hf
    simp only [List.mem_singleton] at hf
    subst hf
    refine ⟨le_min (by norm_num) (by positivity), ?_⟩
    split <;> simp [ValidFinding]

lemma scoreForCredentials_valid (tl : String) :
    0 ≤ (scoreForCredentials tl).1 ∧ ∀ f ∈ (scoreForCredentials tl).2, ValidFinding f := by
  simp only [scoreForCredentials]
  split
  · simp
  · refine ⟨le_min (by norm_num) (by positivity), ?_⟩
    intro f hf
    simp only [List.mem_singleton] at hf
    subst hf
    exact ⟨le_min (by norm_num) (by positivity), by simp [ValidFinding]⟩

lemma scoreForPayments_valid (tl : String) :
    0 ≤ (scoreForPayments tl).1 ∧ ∀ f ∈ (scoreForPayments tl).2, ValidFinding f := by
  simp only [scoreForPayments]
  split
  · simp
  · refine ⟨le_min (by norm_num) (by positivity), ?_⟩
    intro f hf
    simp only [List.mem_singleton] at hf
    subst hf
    refine ⟨le_min (by norm_num) (by positivity), ?_⟩
    split <;> simp [ValidFinding]

lemma scoreForAttachments_valid (tl : String) :
    0 ≤ (scoreForAttachments tl).1 ∧ ∀ f ∈ (scoreForAttachments tl).2, ValidFinding f := by
  simp only [scoreForAttachments]
  split
  · simp
  · refine ⟨le_min (by norm_num) (by positivity), ?_⟩
    intro f hf
    simp only [List.mem_singleton] at hf
    subst hf
    exact ⟨le_min (by norm_num) (by positivity), by simp [ValidFinding]⟩

lemma scoreForGreeting_valid (tl : String) :
    0 ≤ (scoreForGreeting tl).1 ∧ ∀ f ∈ (scoreForGreeting tl).2, ValidFinding f := by
  simp only [scoreForGreeting]
  split
  · simp
  · refine ⟨by norm_num, ?_⟩
    intro f hf
    simp only [List.mem_singleton] at hf
    subst hf
    simp [ValidFinding]

/-- The shape of every non-zero `_score_single_url` result: one of the five
check outcomes, so weight between 15 and 25 and severity medium or high. -/
lemma scoreSingleUrl_valid (u tl : String) :
    0 ≤ (scoreSingleUrl u tl).1 ∧ (scoreSingleUrl u tl).1 ≤ 25 ∧
      (0 < (scoreSingleUrl u tl).1 →
        (scoreSingleUrl u tl).2.2.2 ∈ (["medium", "high"] : List String)) := by
  unfold scoreSingleUrl
  cases pyUrlparseNetloc u with
  | none => simp
  | some nl =>
    simp only
    split
    · simp
    · split
      · simp
      · split
        · simp
        · split
          · simp
          · split
            · simp
            · simp

/-- The loop of `_score_for_urls`: the running weight is the plain sum of
the per-URL weights and the appended findings are exactly one finding per
URL whose cascade matched, in URL order. -/
lemma scoreForUrlsAux_spec (tl : String) (urls : List String) :
    (scoreForUrlsAux tl urls).1 = (urls.map (fun u => (scoreSingleUrl u tl).1)).sum ∧
    (scoreForUrlsAux tl urls).2 = urls.flatMap (fun u =>
      if 0 < (scoreSingleUrl u tl).1 then [mkUrlFinding u (scoreSingleUrl u tl)] else []) := by
  induction urls with
  | nil => simp [scoreForUrlsAux]
  | cons u rest ih =>
    simp only [scoreForUrlsAux, List.map_cons, List.sum_cons, List.flatMap_cons]
    split
    · rename_i h
      simp [ih.1, ih.2, h]
    · rename_i h
      have h0 := (scoreSingleUrl_valid u tl).1
      have hz : (scoreSingleUrl u tl).1 = 0 := by omega
      simp [ih.1, ih.2, h, hz]

lemma scoreForUrlsAux_valid (tl : String) (urls : List String) :
    0 ≤ (scoreForUrlsAux tl urls).1 ∧ ∀ f ∈ (scoreForUrlsAux tl urls).2, ValidFinding f := by
  induction urls with
  | nil => simp [scoreForUrlsAux]
  | cons u rest ih =>
    simp only [scoreForUrlsAux]
    split
    · rename_i h
      refine ⟨by have := ih.1; omega, ?_⟩
      intro f hf
      rcases List.mem_cons.mp hf with hf | hf
      · subst hf
        have hs : (scoreSingleUrl u tl).2.2.2 = "medium" ∨ (scoreSingleUrl u tl).2.2.2 = "high" := by
          simpa using (scoreSingleUrl_valid u tl).2.2 h
        rcases hs with hs | hs <;>
          simp [ValidFinding, mkUrlFinding, hs, le_of_lt h]
      · exact ih.2 f hf
    · exact ih

lemma scoreForUrls_valid (urls : List String) (tl : String) :
    0 ≤ (scoreForUrls urls tl).1 ∧ (scoreForUrls urls tl).1 ≤ 40 ∧
    ∀ f ∈ (scoreForUrls urls tl).2, ValidFinding f := by
  refine ⟨le_min (scoreForUrlsAux_valid tl urls).1 (by norm_num), min_le_right _ _,
    (scoreForUrlsAux_valid tl urls).2⟩

lemma score_and_flags_for_text_valid (text : String) :
    0 ≤ (score_and_flags_for_text text).1 ∧ (score_and_flags_for_text text).1 ≤ 100 ∧
    ∀ f ∈ (score_and_flags_for_text text).2, ValidFinding f := by
  simp only [score_and_flags_for_text]
  refine ⟨le_max_left _ _, max_le (by norm_num) (min_le_left _ _), ?_⟩
  intro f hf
  simp only [List.mem_append] at hf
  rcases hf with ((((((hf | hf) | hf) | hf) | hf) | hf) | hf)
  · exact (scoreForUrgency_valid _).2 f hf
  · exact (scoreForThreats_valid _).2 f hf
  · exact (scoreForCredentials_valid _).2 f hf
  · exact (scoreForPayments_valid _).2 f hf
  · exact (scoreForAttachments_valid _).2 f hf
  · exact (scoreForGreeting_valid _).2 f hf
  · revert hf
    split
    · intro hf
      simp at hf
    · intro hf
      exact (scoreForUrls_valid _ _).2.2 f hf

lemma score_and_flags_for_url_valid (url : String) :
    0 ≤ (score_and_flags_for_url url).1 ∧ (score_and_flags_for_url url).1 ≤ 100 ∧
    ∀ f ∈ (score_and_flags_for_url url).2, ValidFinding f := by
  simp only [score_and_flags_for_url]
  refine ⟨le_max_left _ _, max_le (by norm_num) (min_le_left _ _), ?_⟩
  intro f hf
  revert hf
  split
  · rename_i h
    intro hf
    simp only [List.mem_singleton] at hf
    subst hf
    have hs : (scoreSingleUrl (pyStrip url) (lowerStr url)).2.2.2 = "medium" ∨
        (scoreSingleUrl (pyStrip url) (lowerStr url)).2.2.2 = "high" := by
      simpa using (scoreSingleUrl_valid (pyStrip url) (lowerStr url)).2.2 h
    rcases hs with hs | hs <;> simp [ValidFinding, hs, le_of_lt h]
  · intro hf
    simp at hf

lemma metaFindings_valid (s : Int) : ∀ f ∈ metaFindings s, ValidFinding f := by
  intro f hf
  rcases List.mem_cons.mp hf with hf | hf
  · subst hf; simp [ValidFinding]
  · simp only [List.mem_singleton] at hf
    subst hf; simp [ValidFinding]

lemma analyze_valid (inp mode : String) :
    0 ≤ (analyze_text_or_url inp mode).score ∧ (analyze_text_or_url inp mode).score ≤ 100 ∧
    ∀ f ∈ (analyze_text_or_url inp mode).findings, ValidFinding f := by
  simp only [analyze_text_or_url]
  split
  · refine ⟨(score_and_flags_for_url_valid _).1, (score_and_flags_for_url_valid _).2.1, ?_⟩
    intro f hf
    rcases List.mem_append.mp hf with hf | hf
    · exact metaFindings_valid _ f hf
    · exact (score_and_flags_for_url_valid _).2.2 f hf
  · refine ⟨(score_and_flags_for_text_valid _).1, (score_and_flags_for_text_valid _).2.1, ?_⟩
    intro f hf
    rcases List.mem_append.mp hf with hf | hf
    · exact metaFindings_valid _ f hf
    · exact (score_and_flags_for_text_valid _).2.2 f hf

/-!  ## Labels emitted by each scorer  -/

/-- The labels a URL-cascade match can carry. -/
def urlLabels : List String :=
  ["IP address URL", "Unusual domain", "Noisy domain",
   "URL shortener", "Possible brand impersonation"]

lemma scoreForUrgency_labels (tl : String) :
    ∀ f ∈ (scoreForUrgency tl).2, f.label = "Urgency language" := by
  simp only [scoreForUrgency]; split <;> simp

lemma scoreForThreats_labels (tl : String) :
    ∀ f ∈ (scoreForThreats tl).2, f.label = "Threat/penalty language" := by
  simp only [scoreForThreats]; split <;> simp

lemma scoreForCredentials_labels (tl : String) :
    ∀ f ∈ (scoreForCredentials tl).2, f.label = "Credentials / OTP request" := by
  simp only [scoreForCredentials]; split <;> simp

lemma scoreForPayments_labels (tl : String) :
    ∀ f ∈ (scoreForPayments tl).2, f.label = "Payment / money request" := by
  simp only [scoreForPayments]; split <;> simp

lemma scoreForAttachments_labels (tl : String) :
    ∀ f ∈ (scoreForAttachments tl).2, f.label = "Attachment lure" := by
  simp only [scoreForAttachments]; split <;> simp

lemma scoreForGreeting_labels (tl : String) :
    ∀ f ∈ (scoreForGreeting tl).2, f.label = "Generic greeting" := by
  simp only [scoreForGreeting]; split <;> simp

lemma scoreSingleUrl_label (u tl : String) (h : 0 < (scoreSingleUrl u tl).1) :
    (scoreSingleUrl u tl).2.1 ∈ urlLabels := by
  revert h
  unfold scoreSingleUrl
  cases pyUrlparseNetloc u with
  | none => simp
  | some nl =>
    simp only
    split
    · simp [urlLabels]
    · split
      · simp [urlLabels]
      · split
        · simp [urlLabels]
        · split
          · simp [urlLabels]
          · split
            · simp [urlLabels]
            · simp

lemma scoreForUrlsAux_labels (tl : String) (urls : List String) :
    ∀ f ∈ (scoreForUrlsAux tl urls).2, f.label ∈ urlLabels := by
  induction urls with
  | nil => simp [scoreForUrlsAux]
  | cons u rest ih =>
    simp only [scoreForUrlsAux]
    split
    · rename_i h
      intro f hf
      rcases List.mem_cons.mp hf with hf | hf
      · subst hf
        simpa [mkUrlFinding] using scoreSingleUrl_label u tl h
      · exact ih f hf
    · exact ih

/-- Exact shape of the credentials scorer. -/
lemma scoreForCredentials_spec (tl : String) :
    (0 < countHits CREDENTIAL_TERMS tl →
      scoreForCredentials tl =
        (min 30 (10 * (countHits CREDENTIAL_TERMS tl : Int)),
         [⟨"Credentials / OTP request", "Message refers to login, passwords or codes.",
           "high", min 30 (10 * (countHits CREDENTIAL_TERMS tl : Int))⟩])) ∧
    (countHits CREDENTIAL_TERMS tl = 0 → scoreForCredentials tl = (0, [])) := by
  simp only [scoreForCredentials]
  split
  · rename_i h
    exact ⟨fun hc => absurd h (by omega), fun _ => rfl⟩
  · rename_i h
    exact ⟨fun _ => rfl, fun hc => absurd hc h⟩

/-!  ## Claim theorems  -/

/-- C1: for every input string and every mode, the result of
`analyze_text_or_url` has an integer score with `0 ≤ score ≤ 100`, and
every finding in its findings list has `weight ≥ 0` and a severity in
`{info, low, medium, high}`. -/
theorem c1_score_and_finding_invariants (inp mode : String) :
    0 ≤ (analyze_text_or_url inp mode).score ∧
    (analyze_text_or_url inp mode).score ≤ 100 ∧
    ∀ f ∈ (analyze_text_or_url inp mode).findings,
      0 ≤ f.weight ∧ f.severity ∈ (["info", "low", "medium", "high"] : List String) :=
  ⟨(analyze_valid inp mode).1, (analyze_valid inp mode).2.1, (analyze_valid inp mode).2.2⟩

/-- Witness for C1: the invariant instantiated at a concrete input and a
concrete member of its findings list. -/
theorem c1_score_and_finding_invariants_witness :
    0 ≤ (analyze_text_or_url "hello" "text").score ∧
    (analyze_text_or_url "hello" "text").score ≤ 100 ∧
    (0 ≤ (⟨"Risk band", "Low risk (rules-based).", "info", 0⟩ : Finding).weight ∧
      (⟨"Risk band", "Low risk (rules-based).", "info", 0⟩ : Finding).severity ∈
        (["info", "low", "medium", "high"] : List String)) :=
  ⟨(c1_score_and_finding_invariants "hello" "text").1,
   (c1_score_and_finding_invariants "hello" "text").2.1,
   (c1_score_and_finding_invariants "hello" "text").2.2 _ (by decide)⟩

/-- C2: `analyze_text_or_url` is a total function (the embedding of "never
raises") whose score is always a valid `0..100` integer, and on the empty
string in text mode returns score `0` with a findings list holding only the
two meta entries. -/
theorem c2_total_and_empty_input :
    (∀ inp mode, 0 ≤ (analyze_text_or_url inp mode).score ∧
      (analyze_text_or_url inp mode).score ≤ 100) ∧
    analyze_text_or_url "" "text" =
      ⟨0, [⟨"Risk band", "Low risk (rules-based).", "info", 0⟩,
           ⟨"Rule score", "0/100 (heuristics).", "info", 0⟩]⟩ := by
  constructor
  · exact fun inp mode => ⟨(analyze_valid inp mode).1, (analyze_valid inp mode).2.1⟩
  · decide

/-- C3 counterexample: at the URL `"http://["` — the bracket-mismatch case
on which CPython's `urlparse` raises `ValueError` (no host can be
extracted) — the URL analyzer emits no finding at all and weight `0`, not
a single high-severity "malformed URL" finding of weight `25`. -/
theorem c3_counterexample :
    pyUrlparseNetloc "http://[" = none ∧
    scoreSingleUrl "http://[" "" = (0, "", "", "") ∧
    score_and_flags_for_url "http://[" = (0, []) :=
  ⟨by decide, by decide, by decide⟩

/-- C3 amended: when the URL analyzer fails to parse a URL (no host can be
extracted), it returns immediately with weight `0` and emits no finding at
all; no further checks run. -/
theorem c3_parse_failure_is_silent (url tl : String)
    (h : pyUrlparseNetloc url = none) :
    scoreSingleUrl url tl = (0, "", "", "") := by
  unfold scoreSingleUrl
  rw [h]

/-- Witness for the amended C3 at the concrete unparseable URL. -/
theorem c3_parse_failure_is_silent_witness :
    scoreSingleUrl "http://[" "some text" = (0, "", "", "") :=
  c3_parse_failure_is_silent "http://[" "some text" (by decide)

/-- Auxiliary for C4: one finding per URL whose cascade matched. -/
lemma scoreForUrlsAux_length (tl : String) (urls : List String) :
    (scoreForUrlsAux tl urls).2.length =
      (urls.filter (fun u => 0 < (scoreSingleUrl u tl).1)).length := by
  induction urls with
  | nil => simp [scoreForUrlsAux]
  | cons u rest ih =>
    simp only [scoreForUrlsAux, List.filter_cons]
    by_cases h : 0 < (scoreSingleUrl u tl).1 <;> simp [h, ih]

/-- C4 counterexample: the host `12345-aa-bb-cc.xyz` matches both the
suspicious-TLD check and the noisy-domain check (5 digits, 3 hyphens),
yet the URL contributes exactly one finding — the suspicious-TLD one —
so the checks do not run independently and accumulate. -/
theorem c4_counterexample :
    pyUrlparseNetloc "http://12345-aa-bb-cc.xyz/x" = some "12345-aa-bb-cc.xyz" ∧
    strEndsWith "12345-aa-bb-cc.xyz" ".xyz" = true ∧
    5 ≤ ("12345-aa-bb-cc.xyz".data.filter Char.isDigit).length ∧
    3 ≤ "12345-aa-bb-cc.xyz".data.count '-' ∧
    scoreForUrls ["http://12345-aa-bb-cc.xyz/x"] "" =
      (18, [⟨"Unusual domain", "Domain ends with .xyz. (http://12345-aa-bb-cc.xyz/x)",
            "medium", 18⟩]) :=
  ⟨by decide, by decide, by decide, by decide, by decide⟩

/-- C4 amended: the URL checks are evaluated in a fixed order and
short-circuit, so each URL contributes at most one finding (exactly one
when its cascade matched), never one finding per matched check. -/
theorem c4_amended_single_finding_per_url (urls : List String) (tl : String) :
    (scoreForUrls urls tl).2.length =
      (urls.filter (fun u => 0 < (scoreSingleUrl u tl).1)).length ∧
    (scoreForUrls urls tl).2.length ≤ urls.length := by
  refine ⟨scoreForUrlsAux_length tl urls, ?_⟩
  rw [show (scoreForUrls urls tl).2 = (scoreForUrlsAux tl urls).2 from rfl,
    scoreForUrlsAux_length tl urls]
  exact List.length_filter_le _ _

/-- C5: the app analyzes the input in URL mode iff URL extraction yields
exactly one URL whose stripped form equals the stripped input; in every
other case (even when the input contains URLs) text mode is used. -/
theorem c5_mode_selection (txt : String) :
    (selectMode txt = "url" ↔
      ∃ u, extract_urls txt = [u] ∧ pyStrip u = pyStrip txt) ∧
    (selectMode txt = "url" ∨ selectMode txt = "text") := by
  unfold selectMode
  cases hu : extract_urls txt with
  | nil =>
    dsimp only
    refine ⟨⟨fun h => absurd h (by decide), ?_⟩, Or.inr rfl⟩
    rintro ⟨u, hv, _⟩
    simp at hv
  | cons u rest =>
    cases rest with
    | nil =>
      dsimp only
      by_cases h : pyStrip u = pyStrip txt
      · rw [if_pos h]
        exact ⟨⟨fun _ => ⟨u, rfl, h⟩, fun _ => rfl⟩, Or.inl rfl⟩
      · rw [if_neg h]
        refine ⟨⟨fun hc => absurd hc (by decide), ?_⟩, Or.inr rfl⟩
        rintro ⟨v, hv, hsv⟩
        obtain rfl : u = v := by injection hv
        exact absurd hsv h
    | cons v rest2 =>
      dsimp only
      refine ⟨⟨fun hc => absurd hc (by decide), ?_⟩, Or.inr rfl⟩
      rintro ⟨w, hw, _⟩
      simp at hw

/-- Witness for C5: a bare URL selects URL mode; text containing a URL with
surrounding words selects text mode. -/
theorem c5_mode_selection_witness :
    selectMode "http://a.com" = "url" ∧
    selectMode "see http://a.com please" = "text" := by
  constructor
  · exact (c5_mode_selection "http://a.com").1.mpr ⟨"http://a.com", by decide, by decide⟩
  · rcases (c5_mode_selection "see http://a.com please").2 with h | h
    · exfalso
      obtain ⟨u, hu, hs⟩ := (c5_mode_selection "see http://a.com please").1.mp h
      have he : extract_urls "see http://a.com please" = ["http://a.com"] := by decide
      rw [he] at hu
      obtain rfl : "http://a.com" = u := by injection hu
      exact absurd hs (by decide)
    · exact h

lemma filter_label_eq_nil (l : List Finding) (lbl : String)
    (h : ∀ f ∈ l, f.label ≠ lbl) :
    l.filter (fun f => f.label = lbl) = [] := by
  rw [List.filter_eq_nil_iff]
  intro a ha
  simp [h a ha]

/-- C6: for every text whose lower-cased form contains `c ≥ 1` credential
trigger phrases, the text analyzer emits exactly one credential finding,
with weight `min 30 (10 * c)` and severity `high`; with zero hits it emits
no credential finding and contributes `0`. -/
theorem c6_credential_scoring (text : String) :
    (((score_and_flags_for_text text).2.filter
        (fun f => f.label = "Credentials / OTP request")).length
      = if 0 < countHits CREDENTIAL_TERMS (lowerStr text) then 1 else 0) ∧
    (∀ f ∈ (score_and_flags_for_text text).2,
      f.label = "Credentials / OTP request" →
        f.weight = min 30 (10 * (countHits CREDENTIAL_TERMS (lowerStr text) : Int)) ∧
        f.severity = "high") ∧
    (countHits CREDENTIAL_TERMS (lowerStr text) = 0 →
      scoreForCredentials (lowerStr text) = (0, [])) := by
  have hcred := scoreForCredentials_spec (lowerStr text)
  refine ⟨?_, ?_, hcred.2⟩
  · simp only [score_and_flags_for_text]
    have h1 := filter_label_eq_nil (scoreForUrgency (lowerStr text)).2 "Credentials / OTP request"
      (fun f hf => by rw [scoreForUrgency_labels _ f hf]; decide)
    have h2 := filter_label_eq_nil (scoreForThreats (lowerStr text)).2 "Credentials / OTP request"
      (fun f hf => by rw [scoreForThreats_labels _ f hf]; decide)
    have h4 := filter_label_eq_nil (scoreForPayments (lowerStr text)).2 "Credentials / OTP request"
      (fun f hf => by rw [scoreForPayments_labels _ f hf]; decide)
    have h5 := filter_label_eq_nil (scoreForAttachments (lowerStr text)).2 "Credentials / OTP request"
      (fun f hf => by rw [scoreForAttachments_labels _ f hf]; decide)
    have h6 := filter_label_eq_nil (scoreForGreeting (lowerStr text)).2 "Credentials / OTP request"
      (fun f hf => by rw [scoreForGreeting_labels _ f hf]; decide)
    have h7 : ((if (findUrls text).isEmpty then ((0 : Int), ([] : List Finding))
        else scoreForUrls (findUrls text) (lowerStr text)).2).filter
          (fun f => f.label = "Credentials / OTP request") = [] := by
      split
      · simp
      · refine filter_label_eq_nil _ _ (fun f hf => ?_)
        have hm := scoreForUrlsAux_labels (lowerStr text) (findUrls text) f hf
        intro hEq
        rw [hEq] at hm
        exact absurd hm (by decide)
    rw [List.filter_append, List.filter_append, List.filter_append,
        List.filter_append, List.filter_append, List.filter_append,
        h1, h2, h4, h5, h6, h7]
    by_cases hc : 0 < countHits CREDENTIAL_TERMS (lowerStr text)
    · rw [if_pos hc, hcred.1 hc]
      simp
    · rw [if_neg hc, hcred.2 (by omega)]
      simp
  · intro f hf hlbl
    simp only [score_and_flags_for_text] at hf
    simp only [List.mem_append] at hf
    rcases hf with ((((((hf | hf) | hf) | hf) | hf) | hf) | hf)
    · exact absurd hlbl (by rw [scoreForUrgency_labels _ f hf]; decide)
    · exact absurd hlbl (by rw [scoreForThreats_labels _ f hf]; decide)
    · by_cases hc : 0 < countHits CREDENTIAL_TERMS (lowerStr text)
      · rw [hcred.1 hc] at hf
        simp only [List.mem_singleton] at hf
        subst hf
        exact ⟨rfl, rfl⟩
      · rw [hcred.2 (by omega)] at hf
        simp at hf
    · exact absurd hlbl (by rw [scoreForPayments_labels _ f hf]; decide)
    · exact absurd hlbl (by rw [scoreForAttachments_labels _ f hf]; decide)
    · exact absurd hlbl (by rw [scoreForGreeting_labels _ f hf]; decide)
    · revert hf
      split
      · intro hf
        simp at hf
      · intro hf
        have hm := scoreForUrlsAux_labels (lowerStr text) (findUrls text) f hf
        rw [hlbl] at hm
        exact absurd hm (by decide)

/-- Witness for C6: one hit on `"password"` gives one credential finding of
the stated weight; a text with no trigger contributes `(0, [])`. -/
theorem c6_credential_scoring_witness :
    ((score_and_flags_for_text "password").2.filter
        (fun f => f.label = "Credentials / OTP request")).length = 1 ∧
    (⟨"Credentials / OTP request", "Message refers to login, passwords or codes.",
      "high", 10⟩ : Finding).weight
        = min 30 (10 * (countHits CREDENTIAL_TERMS (lowerStr "password") : Int)) ∧
    scoreForCredentials (lowerStr "no triggers here") = (0, []) := by
  refine ⟨?_, ?_, (c6_credential_scoring "no triggers here").2.2 (by decide)⟩
  · have h := (c6_credential_scoring "password").1
    rw [if_pos (by decide)] at h
    exact h
  · exact ((c6_credential_scoring "password").2.1 _ (by decide) rfl).1

/-- The URL component of `score_and_flags_for_text` contributes exactly the
loop's findings, whether or not the URL list is empty. -/
lemma text_url_component (text : String) :
    (if (findUrls text).isEmpty then ((0 : Int), ([] : List Finding))
      else scoreForUrls (findUrls text) (lowerStr text)).2 =
    (scoreForUrlsAux (lowerStr text) (findUrls text)).2 := by
  split
  · rename_i h
    rw [List.isEmpty_iff] at h
    rw [h]
    rfl
  · rfl

/-- C7: every result of `analyze_text_or_url` starts with the two meta
findings in fixed order (risk band, then rule score), and in text mode the
detection findings that follow are exactly those of the checks in run
order: urgency, threats, credentials, payments, attachments, greeting,
then the URL findings in URL order. -/
theorem c7_findings_ordering (inp mode : String) :
    (∃ det, (analyze_text_or_url inp mode).findings =
      [⟨"Risk band", riskBand (analyze_text_or_url inp mode).score ++ " risk (rules-based).",
        "info", 0⟩,
       ⟨"Rule score", intRepr (analyze_text_or_url inp mode).score ++ "/100 (heuristics).",
        "info", 0⟩] ++ det) ∧
    (mode ≠ "url" →
      (analyze_text_or_url inp mode).findings =
        metaFindings (score_and_flags_for_text inp).1 ++
        ((scoreForUrgency (lowerStr inp)).2 ++ (scoreForThreats (lowerStr inp)).2 ++
         (scoreForCredentials (lowerStr inp)).2 ++ (scoreForPayments (lowerStr inp)).2 ++
         (scoreForAttachments (lowerStr inp)).2 ++ (scoreForGreeting (lowerStr inp)).2 ++
         (scoreForUrlsAux (lowerStr inp) (findUrls inp)).2)) := by
  constructor
  · exact ⟨_, rfl⟩
  · intro h
    simp only [analyze_text_or_url, if_neg h]
    congr 1
    simp only [score_and_flags_for_text]
    rw [text_url_component]

/-- Witness for C7 in text mode at a concrete input. -/
theorem c7_findings_ordering_witness :
    (analyze_text_or_url "dear customer" "text").findings =
      metaFindings (score_and_flags_for_text "dear customer").1 ++
      ((scoreForUrgency (lowerStr "dear customer")).2 ++
       (scoreForThreats (lowerStr "dear customer")).2 ++
       (scoreForCredentials (lowerStr "dear customer")).2 ++
       (scoreForPayments (lowerStr "dear customer")).2 ++
       (scoreForAttachments (lowerStr "dear customer")).2 ++
       (scoreForGreeting (lowerStr "dear customer")).2 ++
       (scoreForUrlsAux (lowerStr "dear customer") (findUrls "dear customer")).2) :=
  (c7_findings_ordering "dear customer" "text").2 (by decide)

/-- C8 counterexample: on the input mentioning "DHL" with the embedded link
`http://dhl-tracking-update.xyz/parcel`, the analysis yields only the
suspicious-TLD ("Unusual domain") medium finding — no brand/domain-mismatch
finding — with score 18 and band Low (not High). -/
theorem c8_counterexample :
    strContains (lowerStr "Your DHL parcel: http://dhl-tracking-update.xyz/parcel") "dhl"
      = true ∧
    findUrls "Your DHL parcel: http://dhl-tracking-update.xyz/parcel"
      = ["http://dhl-tracking-update.xyz/parcel"] ∧
    analyze_text_or_url "Your DHL parcel: http://dhl-tracking-update.xyz/parcel" "text" =
      ⟨18, [⟨"Risk band", "Low risk (rules-based).", "info", 0⟩,
            ⟨"Rule score", "18/100 (heuristics).", "info", 0⟩,
            ⟨"Unusual domain",
             "Domain ends with .xyz. (http://dhl-tracking-update.xyz/parcel)",
             "medium", 18⟩]⟩ :=
  ⟨by decide, by decide, by decide⟩

/-- C8 amended: for any text mentioning "dhl", the URL
`http://dhl-tracking-update.xyz/parcel` scores as a single suspicious-TLD
("Unusual domain") medium finding of weight 18; the brand-impersonation
check is never reached (the TLD check fires first — and the host contains
"dhl" anyway), so no high-severity brand finding is produced. -/
theorem c8_amended_tld_not_brand (text : String)
    (_h : strContains (lowerStr text) "dhl" = true) :
    scoreSingleUrl "http://dhl-tracking-update.xyz/parcel" (lowerStr text) =
      (18, "Unusual domain", "Domain ends with .xyz.", "medium") := rfl

/-- Witness for the amended C8 at the scenario input. -/
theorem c8_amended_tld_not_brand_witness :
    scoreSingleUrl "http://dhl-tracking-update.xyz/parcel"
      (lowerStr "Your DHL parcel: http://dhl-tracking-update.xyz/parcel") =
      (18, "Unusual domain", "Domain ends with .xyz.", "medium") :=
  c8_amended_tld_not_brand "Your DHL parcel: http://dhl-tracking-update.xyz/parcel"
    (by decide)

/-- C9: the external-judgment call never propagates a failure: whatever the
key and the outcome of the guarded block, the returned judgment's score is
an integer clamped to `0..100`; when the capability is unavailable, or the
block raises, or the response holds no JSON, the default `score = 0`
judgment with the classified rationale is returned. -/
theorem c9_ai_judge_never_raises (key : Option String) (outcome : AIOutcome) :
    0 ≤ (ai_judge key outcome).score ∧ (ai_judge key outcome).score ≤ 100 ∧
    (ai_available key = false →
      ai_judge key outcome = ⟨0, "AI disabled (no API key set or not visible)."⟩) ∧
    (∀ cls msg, outcome = AIOutcome.exn cls msg → (ai_judge key outcome).score = 0) ∧
    (outcome = AIOutcome.noJson → ai_available key = true →
      ai_judge key outcome = ⟨0, "AI returned no JSON."⟩) := by
  cases hk : ai_available key with
  | false =>
    have he : ai_judge key outcome = ⟨0, "AI disabled (no API key set or not visible)."⟩ := by
      unfold ai_judge
      rw [hk]
      rfl
    rw [he]
    exact ⟨le_refl 0, by norm_num, fun _ => rfl, fun _ _ _ => rfl,
      fun _ hk2 => absurd hk2 (by decide)⟩
  | true =>
    cases outcome with
    | exn cls msg =>
      have he : ai_judge key (AIOutcome.exn cls msg) =
          ⟨0, "AI error; running rules-only. (" ++ cls ++ ": " ++ ⟨msg.data.take 200⟩ ++ ")"⟩ := by
        unfold ai_judge
        rw [hk]
        rfl
      rw [he]
      exact ⟨le_refl 0, by norm_num, fun hf => absurd hf (by decide), fun _ _ _ => rfl,
        fun hj _ => by simp at hj⟩
    | noJson =>
      have he : ai_judge key AIOutcome.noJson = ⟨0, "AI returned no JSON."⟩ := by
        unfold ai_judge
        rw [hk]
        rfl
      rw [he]
      exact ⟨le_refl 0, by norm_num, fun hf => absurd hf (by decide),
        fun _ _ hj => by simp at hj, fun _ _ => rfl⟩
    | json sc rat =>
      have he : ai_judge key (AIOutcome.json sc rat) =
          ⟨max 0 (min 100 sc),
           if pyStrip rat = "" then "No rationale." else pyStrip rat⟩ := by
        unfold ai_judge
        rw [hk]
        rfl
      rw [he]
      exact ⟨le_max_left _ _, max_le (by norm_num) (min_le_left _ _),
        fun hf => absurd hf (by decide),
        fun _ _ hj => by simp at hj, fun hj _ => by simp at hj⟩

/-- Witness for C9: a missing key, a JSON-less response and a raised
exception each produce the corresponding default judgment. -/
theorem c9_ai_judge_never_raises_witness :
    ai_judge none AIOutcome.noJson = ⟨0, "AI disabled (no API key set or not visible)."⟩ ∧
    ai_judge (some "sk-test") AIOutcome.noJson = ⟨0, "AI returned no JSON."⟩ ∧
    (ai_judge (some "sk-test") (AIOutcome.exn "APITimeoutError" "timed out")).score = 0 :=
  ⟨(c9_ai_judge_never_raises none AIOutcome.noJson).2.2.1 (by decide),
   (c9_ai_judge_never_raises (some "sk-test") AIOutcome.noJson).2.2.2.2 rfl (by decide),
   (c9_ai_judge_never_raises (some "sk-test")
     (AIOutcome.exn "APITimeoutError" "timed out")).2.2.2.1
       "APITimeoutError" "timed out" rfl⟩

/-!  ## C10: first-match priority order and the 40-point cap  -/

/-- Spec-side restatement of the claimed priority order: the five URL
checks as (fired?, result) pairs over the parsed host, in the order
raw IP, suspicious TLD, noisy domain, shortener, brand impersonation. -/
def urlChecksSpec (host textLower : String) :
    List (Bool × (Int × String × String × String)) :=
  [(hostIsIp host,
    (25, "IP address URL", "Link uses raw IP address.", "high")),
   ((tldHit host).isSome,
    (18, "Unusual domain", "Domain ends with " ++ (tldHit host).getD "" ++ ".", "medium")),
   (hostNoisy host,
    (15, "Noisy domain", "Domain has many digits or dashes.", "medium")),
   (hostShortener host,
    (20, "URL shortener", "Link uses a generic URL shortener.", "medium")),
   ((brandHit textLower host).isSome,
    (22, "Possible brand impersonation",
     "Mentions " ++ pyTitle ((brandHit textLower host).getD "") ++
       " but domain does not match brand.", "high"))]

/-- Spec-side: result of the first fired check, defaulting to no finding. -/
def firstFiredCheck (checks : List (Bool × (Int × String × String × String))) :
    Int × String × String × String :=
  ((checks.find? (fun c => c.1)).map (fun c => c.2)).getD (0, "", "", "")

lemma firstFired_five (b1 b2 b3 b4 b5 : Bool) (r1 r2 r3 r4 r5 : Int × String × String × String) :
    firstFiredCheck [(b1, r1), (b2, r2), (b3, r3), (b4, r4), (b5, r5)] =
      if b1 then r1 else if b2 then r2 else if b3 then r3 else if b4 then r4
      else if b5 then r5 else (0, "", "", "") := by
  unfold firstFiredCheck
  cases b1 <;> cases b2 <;> cases b3 <;> cases b4 <;> cases b5 <;> rfl

/-- The cascade of `_score_single_url` refines the claimed first-match
priority order. -/
lemma scoreSingleUrl_firstMatch (u tl netloc : String)
    (h : pyUrlparseNetloc u = some netloc) :
    scoreSingleUrl u tl = firstFiredCheck (urlChecksSpec (lowerStr netloc) tl) := by
  unfold scoreSingleUrl urlChecksSpec
  rw [h, firstFired_five]
  cases h1 : hostIsIp (lowerStr netloc) with
  | true => simp [h1]
  | false =>
    simp only [h1, Bool.false_eq_true, if_false]
    cases h2 : tldHit (lowerStr netloc) with
    | some tld => simp [h2]
    | none =>
      simp only [h2, Option.isSome_none, Bool.false_eq_true, if_false]
      cases h3 : hostNoisy (lowerStr netloc) with
      | true => simp [h3]
      | false =>
        simp only [h3, Bool.false_eq_true, if_false]
        cases h4 : hostShortener (lowerStr netloc) with
        | true => simp [h4]
        | false =>
          simp only [h4, Bool.false_eq_true, if_false]
          cases h5 : brandHit tl (lowerStr netloc) with
          | some brand => simp [h5]
          | none => simp [h5]

/-- C10: each URL contributes at most one detection finding — the result of
the first matching check in the priority order raw IP, suspicious TLD,
noisy domain, shortener, brand impersonation — and within text scoring the
summed URL contribution to the score is capped at 40 while every matched
URL's finding is still appended with its full weight. -/
theorem c10_url_first_match_and_cap (urls : List String) (tl : String) :
    (∀ u netloc, pyUrlparseNetloc u = some netloc →
      scoreSingleUrl u tl = firstFiredCheck (urlChecksSpec (lowerStr netloc) tl)) ∧
    (scoreForUrls urls tl).1 =
      min ((urls.map (fun u => (scoreSingleUrl u tl).1)).sum) 40 ∧
    (scoreForUrls urls tl).2 = urls.flatMap (fun u =>
      if 0 < (scoreSingleUrl u tl).1 then [mkUrlFinding u (scoreSingleUrl u tl)] else []) ∧
    (scoreForUrls urls tl).2.length =
      (urls.filter (fun u => 0 < (scoreSingleUrl u tl).1)).length := by
  refine ⟨fun u netloc h => scoreSingleUrl_firstMatch u tl netloc h, ?_,
    (scoreForUrlsAux_spec tl urls).2, scoreForUrlsAux_length tl urls⟩
  show min (scoreForUrlsAux tl urls).1 40 = _
  rw [(scoreForUrlsAux_spec tl urls).1]

/-- Witness for C10: the refinement instantiated at a raw-IP URL. -/
theorem c10_url_first_match_and_cap_witness :
    scoreSingleUrl "http://1.2.3.4/x" "" =
      firstFiredCheck (urlChecksSpec (lowerStr "1.2.3.4") "") :=
  (c10_url_first_match_and_cap [] "").1 "http://1.2.3.4/x" "1.2.3.4" (by decide)

end PhishSleuth
